import Mathlib

set_option autoImplicit false

namespace GardenerMetrics

/-- Shallow embedding of `prometheus.Desc` as built by `prometheus.NewDesc`:
a fully-qualified metric name, a help string and the ordered list of variable
label names.  The `constLabels` argument of `NewDesc` is always `nil` in
`pkg/metrics/metrics.go` and is therefore omitted. -/
structure Desc where
  fqName : String
  help : String
  variableLabels : List String
  deriving Repr, DecidableEq

/-- Constant `metricGardenProjectsStatus` from `pkg/metrics/metrics.go`. -/
def metricGardenProjectsStatus : String := "garden_projects_status"

/-- Constant `metricGardenUsersSum` from `pkg/metrics/metrics.go`. -/
def metricGardenUsersSum : String := "garden_users_total"

/-- Constant `metricGardenSeedInfo` from `pkg/metrics/metrics.go`. -/
def metricGardenSeedInfo : String := "garden_seed_info"

/-- Constant `metricGardenSeedCondition` from `pkg/metrics/metrics.go`. -/
def metricGardenSeedCondition : String := "garden_seed_condition"

/-- Constant `metricGardenPlantInfo` from `pkg/metrics/metrics.go`. -/
def metricGardenPlantInfo : String := "garden_plant_info"

/-- Constant `metricGardenPlantCondition` from `pkg/metrics/metrics.go`. -/
def metricGardenPlantCondition : String := "garden_plant_condition"

/-- Constant `metricGardenShootCondition` from `pkg/metrics/metrics.go`. -/
def metricGardenShootCondition : String := "garden_shoot_condition"

/-- Constant `metricGardenShootCreation` from `pkg/metrics/metrics.go`. -/
def metricGardenShootCreation : String := "garden_shoot_creation_timestamp"

/-- Constant `metricGardenShootHibernated` from `pkg/metrics/metrics.go`. -/
def metricGardenShootHibernated : String := "garden_shoot_hibernated"

/-- Constant `metricGardenShootInfo` from `pkg/metrics/metrics.go`. -/
def metricGardenShootInfo : String := "garden_shoot_info"

/-- Constant `metricGardenShootNodeMaxTotal` from `pkg/metrics/metrics.go`. -/
def metricGardenShootNodeMaxTotal : String := "garden_shoot_node_max_total"

/-- Constant `metricGardenShootNodeMinTotal` from `pkg/metrics/metrics.go`. -/
def metricGardenShootNodeMinTotal : String := "garden_shoot_node_min_total"

/-- Constant `metricGardenShootOperationProgressPercent` from `pkg/metrics/metrics.go`. -/
def metricGardenShootOperationProgressPercent : String := "garden_shoot_operation_progress_percent"

/-- Constant `metricGardenShootOperationState` from `pkg/metrics/metrics.go`. -/
def metricGardenShootOperationState : String := "garden_shoot_operation_states"

/-- Constant `metricGardenShootResponseDuration` from `pkg/metrics/metrics.go`. -/
def metricGardenShootResponseDuration : String := "garden_shoot_response_duration_milliseconds"

/-- Constant `metricGardenOperationsTotal` from `pkg/metrics/metrics.go`
(aggregated Shoot metric, excludes Shoots which act as Seed). -/
def metricGardenOperationsTotal : String := "garden_shoot_operations_total"

/-- Embedding of `getGardenMetricsDefinitions` from `pkg/metrics/metrics.go`:
the Go `map[string]*prometheus.Desc` literal is embedded as an association
list, kept in the textual order of the map literal in the source.  Every
entry is `NewDesc(name, help, labels, nil)` translated verbatim. -/
def getGardenMetricsDefinitions : List (String × Desc) :=
  [(metricGardenOperationsTotal,
    ⟨metricGardenOperationsTotal, "Count of ongoing operations.",
     ["operation", "state", "iaas", "seed", "version", "region"]⟩),
   (metricGardenPlantCondition,
    ⟨metricGardenPlantCondition,
     "Condition state of a Plant. Possible values: -1=Unknown|0=Unhealthy|1=Healthy|2=Progressing",
     ["name", "project", "condition"]⟩),
   (metricGardenPlantInfo,
    ⟨metricGardenPlantInfo, "Information about a plant.",
     ["name", "project", "provider", "region", "version"]⟩),
   (metricGardenProjectsStatus,
    ⟨metricGardenProjectsStatus, "Status of projects.",
     ["name", "cluster", "phase"]⟩),
   (metricGardenSeedCondition,
    ⟨metricGardenSeedCondition, "Condition state of a Seed.",
     ["name", "condition"]⟩),
   (metricGardenSeedInfo,
    ⟨metricGardenSeedInfo, "Information about a Seed.",
     ["name", "namespace", "iaas", "region", "visible", "protected"]⟩),
   (metricGardenShootCondition,
    ⟨metricGardenShootCondition,
     "Condition state of a Shoot. Possible values: -1=Unknown|0=Unhealthy|1=Healthy|2=Progressing",
     ["name", "project", "condition", "operation", "purpose", "is_seed", "iaas", "uid"]⟩),
   (metricGardenShootCreation,
    ⟨metricGardenShootCreation, "Timestamp of the shoot creation.",
     ["name", "project", "uid"]⟩),
   (metricGardenShootHibernated,
    ⟨metricGardenShootHibernated, "Hibernation status of a shoot.",
     ["name", "project", "uid"]⟩),
   (metricGardenShootInfo,
    ⟨metricGardenShootInfo, "Information about a Shoot.",
     ["name", "project", "iaas", "version", "region", "seed", "is_seed"]⟩),
   (metricGardenShootNodeMaxTotal,
    ⟨metricGardenShootNodeMaxTotal, "Max node count of a Shoot.",
     ["name", "project"]⟩),
   (metricGardenShootNodeMinTotal,
    ⟨metricGardenShootNodeMinTotal, "Min node count of a Shoot.",
     ["name", "project"]⟩),
   (metricGardenShootOperationProgressPercent,
    ⟨metricGardenShootOperationProgressPercent, "Operation progress percent of a Shoot.",
     ["name", "project", "operation"]⟩),
   (metricGardenShootOperationState,
    ⟨metricGardenShootOperationState, "Operation state of a Shoot.",
     ["name", "project", "operation"]⟩),
   (metricGardenShootResponseDuration,
    ⟨metricGardenShootResponseDuration,
     "Response time of the Shoot API server. Not provided when not reachable.",
     ["name", "project"]⟩),
   (metricGardenUsersSum,
    ⟨metricGardenUsersSum, "Count of users.",
     ["kind"]⟩)]

/-- C1: the map returned by `getGardenMetricsDefinitions` holds descriptors for
exactly the sixteen required metrics and no others, and each descriptor's
label-name list is exactly the label set listed in the specification table
(in particular `garden_shoot_operations_total` carries
operation, state, iaas, seed, version, region and `garden_shoot_condition`
carries name, project, condition, operation, purpose, is_seed, iaas, uid). -/
theorem getGardenMetricsDefinitions_labels_exact :
    getGardenMetricsDefinitions.length = 16 ∧
    (getGardenMetricsDefinitions.map Prod.fst).Nodup ∧
    getGardenMetricsDefinitions.map Prod.fst =
      [metricGardenOperationsTotal, metricGardenPlantCondition, metricGardenPlantInfo,
       metricGardenProjectsStatus, metricGardenSeedCondition, metricGardenSeedInfo,
       metricGardenShootCondition, metricGardenShootCreation, metricGardenShootHibernated,
       metricGardenShootInfo, metricGardenShootNodeMaxTotal, metricGardenShootNodeMinTotal,
       metricGardenShootOperationProgressPercent, metricGardenShootOperationState,
       metricGardenShootResponseDuration, metricGardenUsersSum] ∧
    (getGardenMetricsDefinitions.lookup metricGardenOperationsTotal).map Desc.variableLabels
      = some ["operation", "state", "iaas", "seed", "version", "region"] ∧
    (getGardenMetricsDefinitions.lookup metricGardenPlantCondition).map Desc.variableLabels
      = some ["name", "project", "condition"] ∧
    (getGardenMetricsDefinitions.lookup metricGardenPlantInfo).map Desc.variableLabels
      = some ["name", "project", "provider", "region", "version"] ∧
    (getGardenMetricsDefinitions.lookup metricGardenProjectsStatus).map Desc.variableLabels
      = some ["name", "cluster", "phase"] ∧
    (getGardenMetricsDefinitions.lookup metricGardenSeedCondition).map Desc.variableLabels
      = some ["name", "condition"] ∧
    (getGardenMetricsDefinitions.lookup metricGardenSeedInfo).map Desc.variableLabels
      = some ["name", "namespace", "iaas", "region", "visible", "protected"] ∧
    (getGardenMetricsDefinitions.lookup metricGardenShootCondition).map Desc.variableLabels
      = some ["name", "project", "condition", "operation", "purpose", "is_seed", "iaas", "uid"] ∧
    (getGardenMetricsDefinitions.lookup metricGardenShootCreation).map Desc.variableLabels
      = some ["name", "project", "uid"] ∧
    (getGardenMetricsDefinitions.lookup metricGardenShootHibernated).map Desc.variableLabels
      = some ["name", "project", "uid"] ∧
    (getGardenMetricsDefinitions.lookup metricGardenShootInfo).map Desc.variableLabels
      = some ["name", "project", "iaas", "version", "region", "seed", "is_seed"] ∧
    (getGardenMetricsDefinitions.lookup metricGardenShootNodeMaxTotal).map Desc.variableLabels
      = some ["name", "project"] ∧
    (getGardenMetricsDefinitions.lookup metricGardenShootNodeMinTotal).map Desc.variableLabels
      = some ["name", "project"] ∧
    (getGardenMetricsDefinitions.lookup metricGardenShootOperationProgressPercent).map Desc.variableLabels
      = some ["name", "project", "operation"] ∧
    (getGardenMetricsDefinitions.lookup metricGardenShootOperationState).map Desc.variableLabels
      = some ["name", "project", "operation"] ∧
    (getGardenMetricsDefinitions.lookup metricGardenShootResponseDuration).map Desc.variableLabels
      = some ["name", "project"] ∧
    (getGardenMetricsDefinitions.lookup metricGardenUsersSum).map Desc.variableLabels
      = some ["kind"] := by
  decide

/-- C9: every key of the catalog equals the fully-qualified name of the
descriptor it maps to, every metric name carries the `garden_` prefix (its
first seven characters are the characters of `"garden_"`), and the spec's
normalized names `operations_total` and `users_total` are exposed as
`garden_shoot_operations_total` and `garden_users_total` respectively. -/
theorem getGardenMetricsDefinitions_keys_are_fqNames :
    (getGardenMetricsDefinitions.all
      (fun p => decide (p.1 = p.2.fqName) && decide (p.1.data.take 7 = "garden_".data))) = true ∧
    metricGardenOperationsTotal = "garden_shoot_operations_total" ∧
    metricGardenUsersSum = "garden_users_total" ∧
    (getGardenMetricsDefinitions.lookup "garden_shoot_operations_total").isSome = true ∧
    (getGardenMetricsDefinitions.lookup "garden_users_total").isSome = true := by
  decide

/-- Condition: a named health dimension of a Shoot, Seed or Plant, carrying a
raw status string (spec section 3). -/
structure Condition where
  ctype : String
  status : String
  deriving Repr, DecidableEq

/-- Last or ongoing lifecycle Operation of a Shoot: type (Create, Reconcile,
Delete, ...), state (Succeeded, Error, Processing, ...) and progress percent. -/
structure LastOperation where
  otype : String
  state : String
  progress : Nat
  deriving Repr, DecidableEq

/-- Shoot resource: the attributes consumed by the metrics core (spec
section 3).  Worker pools are modelled by their (min, max) node counts. -/
structure Shoot where
  name : String
  project : String
  iaas : String
  region : String
  version : String
  seed : String
  purpose : String
  uid : String
  isSeed : Bool
  hibernated : Bool
  creationTimestamp : Int
  conditions : List Condition
  lastOperation : Option LastOperation
  workers : List (Nat × Nat)
  responseDurationMs : Option Nat
  deriving Repr, DecidableEq

/-- Seed resource: the attributes consumed by the metrics core. -/
structure Seed where
  name : String
  namespc : String
  iaas : String
  region : String
  visible : Bool
  isProtected : Bool
  conditions : List Condition
  deriving Repr, DecidableEq

/-- Project resource: the attributes consumed by the metrics core. -/
structure Project where
  name : String
  cluster : String
  phase : String
  deriving Repr, DecidableEq

/-- Plant resource: the attributes consumed by the metrics core.  The owning
project reference is optional: a nil owner reference is the malformed-object
case of spec section 4.2 (failure isolation). -/
structure Plant where
  name : String
  project : Option String
  provider : String
  region : String
  version : String
  conditions : List Condition
  deriving Repr, DecidableEq

/-- Sample: a (metric name, label-value tuple, numeric value) triple, the
atomic unit emitted per scrape (spec section 3). -/
structure Sample where
  name : String
  labelValues : List String
  value : Int
  deriving Repr, DecidableEq

/-- Boolean label values are rendered as the strings true and false. -/
def boolLabel (b : Bool) : String := if b then "true" else "false"

/-- Modelled from the spec: the condition-status mapping function is not part
of the source fragment under src/.  Spec sections 3, 8 and 9 and the help
strings in `getGardenMetricsDefinitions`
(-1=Unknown|0=Unhealthy|1=Healthy|2=Progressing) fix it as a total mapping
from raw status strings to the four enum values, with Unknown (-1) as the
default for any unrecognized status string; the raw strings of the three
recognized non-default states are taken to be their spec names. -/
def mapConditionStatus (status : String) : Int :=
  if status = "Healthy" then 1
  else if status = "Unhealthy" then 0
  else if status = "Progressing" then 2
  else -1

/-- Operation label value of a Shoot: the type of its last/ongoing operation,
empty when there is none. -/
def operationLabel (s : Shoot) : String :=
  match s.lastOperation with
  | none => ""
  | some op => op.otype

/-- Modelled from the spec: `collectShootMetrics` is not part of the source
fragment under src/ (only its caller `Collect` is); its condition-emission
rule comes from spec section 4.2: one sample per attached Condition on
`garden_shoot_condition`, value `mapConditionStatus` of the raw status. -/
def shootConditionSample (s : Shoot) (c : Condition) : Sample :=
  ⟨metricGardenShootCondition,
   [s.name, s.project, c.ctype, operationLabel s, s.purpose, boolLabel s.isSeed, s.iaas, s.uid],
   mapConditionStatus c.status⟩

/-- Modelled from the spec: info emission of the shoot extractor — exactly one
`garden_shoot_info` sample per Shoot per scrape with value fixed at 1. -/
def shootInfoSample (s : Shoot) : Sample :=
  ⟨metricGardenShootInfo,
   [s.name, s.project, s.iaas, s.version, s.region, s.seed, boolLabel s.isSeed], 1⟩

/-- Modelled from the spec: creation-timestamp emission of the shoot extractor. -/
def shootCreationSample (s : Shoot) : Sample :=
  ⟨metricGardenShootCreation, [s.name, s.project, s.uid], s.creationTimestamp⟩

/-- Modelled from the spec: hibernation-status emission of the shoot extractor. -/
def shootHibernatedSample (s : Shoot) : Sample :=
  ⟨metricGardenShootHibernated, [s.name, s.project, s.uid], if s.hibernated then 1 else 0⟩

/-- Modelled from the spec: node-bounds emission of the shoot extractor —
max and min node counts summed across all worker pools, omitted (no sample)
when the Shoot has no worker pools configured. -/
def shootNodeSamples (s : Shoot) : List Sample :=
  if s.workers.isEmpty then []
  else
    [⟨metricGardenShootNodeMaxTotal, [s.name, s.project], ((s.workers.map Prod.snd).sum : Nat)⟩,
     ⟨metricGardenShootNodeMinTotal, [s.name, s.project], ((s.workers.map Prod.fst).sum : Nat)⟩]

/-- Modelled from the spec: operation state/progress emission of the shoot
extractor — emitted only when the Shoot has a non-empty last/ongoing
Operation; the operation label is the operation type and the progress value
is the raw percent integer.  The numeric encoding of the state sample is left
open by the spec; the model fixes it at 1 for the current state. -/
def shootOperationSamples (s : Shoot) : List Sample :=
  match s.lastOperation with
  | none => []
  | some op =>
      [⟨metricGardenShootOperationProgressPercent, [s.name, s.project, op.otype],
        (op.progress : Int)⟩,
       ⟨metricGardenShootOperationState, [s.name, s.project, op.otype], 1⟩]

/-- Modelled from the spec: response-duration emission of the shoot extractor —
emitted only when the response-time collaborator provided a measurement for
this Shoot during this scrape; absence produces no sample (not zero). -/
def shootResponseSamples (s : Shoot) : List Sample :=
  match s.responseDurationMs with
  | none => []
  | some d => [⟨metricGardenShootResponseDuration, [s.name, s.project], (d : Int)⟩]

/-- Modelled from the spec: all per-shoot samples of one Shoot — condition,
info, creation timestamp, hibernated, node bounds, operation state/progress
and response duration (spec section 4.2). -/
def perShootSamples (s : Shoot) : List Sample :=
  s.conditions.map (shootConditionSample s)
    ++ [shootInfoSample s, shootCreationSample s, shootHibernatedSample s]
    ++ shootNodeSamples s ++ shootOperationSamples s ++ shootResponseSamples s

/-- Aggregation key of a Shoot for `garden_shoot_operations_total`: the
(operation, state, iaas, seed, version, region) label tuple of its
last/ongoing operation, absent when the Shoot has none. -/
def operationKey (s : Shoot) : Option (List String) :=
  s.lastOperation.map (fun op => [op.otype, op.state, s.iaas, s.seed, s.version, s.region])

/-- Modelled from the spec: the aggregated `garden_shoot_operations_total`
samples — one counter-style sample per distinct key observed across all
Shoots in the snapshot that are not themselves acting as a Seed (spec
section 4.2, and the source comment: exclude Shoots which act as Seed). -/
def operationsTotalSamples (shoots : List Shoot) : List Sample :=
  let keys := (shoots.filter (fun s => !s.isSeed)).filterMap operationKey
  keys.dedup.map (fun k => ⟨metricGardenOperationsTotal, k, (keys.count k : Int)⟩)

/-- Modelled from the spec: the shoot extractor — per-shoot samples for every
Shoot in the snapshot, followed by the aggregated operations-total samples. -/
def collectShootMetrics (shoots : List Shoot) : List Sample :=
  (shoots.map perShootSamples).flatten ++ operationsTotalSamples shoots

/-- Modelled from the spec: condition emission of the seed extractor. -/
def seedConditionSample (sd : Seed) (c : Condition) : Sample :=
  ⟨metricGardenSeedCondition, [sd.name, c.ctype], mapConditionStatus c.status⟩

/-- Modelled from the spec: info emission of the seed extractor. -/
def seedInfoSample (sd : Seed) : Sample :=
  ⟨metricGardenSeedInfo,
   [sd.name, sd.namespc, sd.iaas, sd.region, boolLabel sd.visible, boolLabel sd.isProtected], 1⟩

/-- Modelled from the spec: `collectSeedMetrics` is not part of the source
fragment under src/; per spec section 4.2 it emits one condition sample per
attached Condition and exactly one info sample per Seed. -/
def collectSeedMetrics (seeds : List Seed) : List Sample :=
  (seeds.map (fun sd => sd.conditions.map (seedConditionSample sd) ++ [seedInfoSample sd])).flatten

/-- Modelled from the spec: `collectProjectMetrics` is not part of the source
fragment under src/; per spec section 4.1 it emits one
`garden_projects_status` sample per Project carrying name, cluster and phase. -/
def projectStatusSample (p : Project) : Sample :=
  ⟨metricGardenProjectsStatus, [p.name, p.cluster, p.phase], 1⟩

/-- Modelled from the spec: the project extractor. -/
def collectProjectMetrics (projects : List Project) : List Sample :=
  projects.map projectStatusSample

/-- Modelled from the spec: condition emission of the plant extractor. -/
def plantConditionSample (p : Plant) (proj : String) (c : Condition) : Sample :=
  ⟨metricGardenPlantCondition, [p.name, proj, c.ctype], mapConditionStatus c.status⟩

/-- Modelled from the spec: info emission of the plant extractor. -/
def plantInfoSample (p : Plant) (proj : String) : Sample :=
  ⟨metricGardenPlantInfo, [p.name, proj, p.provider, p.region, p.version], 1⟩

/-- Modelled from the spec: per-object derivation of the plant extractor; a
nil owner reference is the unexpected data error of spec section 4.2. -/
def derivePlantSamples (p : Plant) : Except String (List Sample) :=
  match p.project with
  | none => Except.error "missing project owner reference"
  | some proj =>
      Except.ok (p.conditions.map (plantConditionSample p proj) ++ [plantInfoSample p proj])

/-- Modelled from the spec: `collectPlantMetrics` is not part of the source
fragment under src/; per spec section 4.2 (failure isolation) it walks the
snapshot in order, appends the samples of every object that derives cleanly,
and for every failing object skips it and appends one increment, labeled by
resource kind and failure reason, to the process-wide `ScrapeFailures`
counter (modelled as the list of its labeled increments). -/
def collectPlantMetrics (plants : List Plant) (failures : List (String × String)) :
    List Sample × List (String × String) :=
  match plants with
  | [] => ([], failures)
  | p :: rest =>
      match derivePlantSamples p with
      | Except.ok s =>
          let r := collectPlantMetrics rest failures
          (s ++ r.1, r.2)
      | Except.error reason => collectPlantMetrics rest (failures ++ [("plant", reason)])

/-- Embedding of the `gardenMetricsCollector` struct from
`pkg/metrics/metrics.go`.  Each informer handle is modelled by the snapshot
list its lister would return (an informer is a read-only list-all capability,
spec section 6); the logger is an opaque numeric handle. -/
structure gardenMetricsCollector where
  shootInformer : List Shoot
  seedInformer : List Seed
  projectInformer : List Project
  plantInformer : List Plant
  descs : List (String × Desc)
  logger : Nat
  deriving Repr, DecidableEq

/-- Modelled from the spec: `registerShootCustomizationMetrics` is not part of
the source fragment under src/; per spec section 4.3 it emits the
dynamically-registered customization descriptors (an open extension point),
modelled as an explicit argument. -/
def registerShootCustomizationMetrics (custom : List Desc) : List Desc := custom

/-- Embedding of `Describe` from `pkg/metrics/metrics.go`: range over the
descriptor map (in an implementation-chosen iteration order `iter`, a
permutation of the catalog entries), send each descriptor to the channel,
then call `registerShootCustomizationMetrics`.  The result is the unchanged
collector paired with the emitted descriptor sequence. -/
def Describe (c : gardenMetricsCollector) (custom : List Desc)
    (iter : List (String × Desc)) : gardenMetricsCollector × List Desc :=
  (c, iter.map Prod.snd ++ registerShootCustomizationMetrics custom)

/-- Embedding of `Collect` from `pkg/metrics/metrics.go`: invoke the four
per-kind extractors in the order Project, Shoot, Seed, Plant and forward
every produced sample to the output channel, threading the scrape-failure
counter through the fallible plant extractor. -/
def Collect (c : gardenMetricsCollector) (failures : List (String × String)) :
    List Sample × List (String × String) :=
  let projectSamples := collectProjectMetrics c.projectInformer
  let shootSamples := collectShootMetrics c.shootInformer
  let seedSamples := collectSeedMetrics c.seedInformer
  let plantRes := collectPlantMetrics c.plantInformer failures
  (projectSamples ++ shootSamples ++ seedSamples ++ plantRes.1, plantRes.2)

/-- Modelled from the spec: the fully-qualified name of the process-wide
`ScrapeFailures` counter, which is declared outside the source fragment
under src/ (spec section 2: Scrape-Failure Counter). -/
def metricGardenScrapeFailures : String := "garden_scrape_failures_total"

/-- Modelled from the spec: the Prometheus registry used by
`prometheus.MustRegister`, represented by the list of registered descriptor
names; registering a collector whose descriptor names collide with
already-registered ones fails loudly (panics), per spec sections 6 and 7
(duplicate registration is fatal). -/
def MustRegister (registry : List String) (names : List String) :
    Except String (List String) :=
  if ∃ n ∈ names, n ∈ registry then
    Except.error "duplicate metrics collector registration attempted"
  else Except.ok (registry ++ names)

/-- Descriptor names contributed by the garden metrics collector. -/
def gardenCollectorDescNames : List String :=
  getGardenMetricsDefinitions.map (fun p => p.2.fqName)

/-- Embedding of `SetupMetricsCollector` from `pkg/metrics/metrics.go`:
construct the collector from the four informer handles and the catalog, then
`MustRegister` it and the `ScrapeFailures` counter against the process-wide
registry (passed and returned explicitly; a returned error is the panic). -/
def SetupMetricsCollector (shootInformer : List Shoot) (seedInformer : List Seed)
    (projectInformer : List Project) (plantInformer : List Plant) (logger : Nat)
    (registry : List String) :
    Except String (gardenMetricsCollector × List String) := do
  let metricsCollector : gardenMetricsCollector :=
    ⟨shootInformer, seedInformer, projectInformer, plantInformer,
     getGardenMetricsDefinitions, logger⟩
  let r1 ← MustRegister registry (metricsCollector.descs.map (fun p => p.2.fqName))
  let r2 ← MustRegister r1 [metricGardenScrapeFailures]
  pure (metricsCollector, r2)

/-- Example collector: the catalog with empty snapshots, used to instantiate
universally quantified theorems at a concrete input. -/
def exampleCollector : gardenMetricsCollector :=
  ⟨[], [], [], [], getGardenMetricsDefinitions, 0⟩

/-- C3: `Collect` invokes the four per-kind extractors in exactly the fixed
order Project, Shoot, Seed, Plant — the emitted sequence is their outputs
concatenated in that order — and every sample produced by an extractor is
forwarded to the output channel. -/
theorem Collect_fixed_order_and_forwards_all (c : gardenMetricsCollector)
    (failures : List (String × String)) :
    (Collect c failures).1 =
      collectProjectMetrics c.projectInformer ++ collectShootMetrics c.shootInformer
        ++ collectSeedMetrics c.seedInformer ++ (collectPlantMetrics c.plantInformer failures).1
    ∧ (∀ m ∈ collectProjectMetrics c.projectInformer, m ∈ (Collect c failures).1)
    ∧ (∀ m ∈ collectShootMetrics c.shootInformer, m ∈ (Collect c failures).1)
    ∧ (∀ m ∈ collectSeedMetrics c.seedInformer, m ∈ (Collect c failures).1)
    ∧ (∀ m ∈ (collectPlantMetrics c.plantInformer failures).1, m ∈ (Collect c failures).1) := by
  refine ⟨rfl, ?_, ?_, ?_, ?_⟩ <;> intro m hm <;> simp [Collect, List.mem_append] <;> tauto

/-- Witness for C3 at a concrete collector and empty counter. -/
theorem Collect_fixed_order_and_forwards_all_witness :
    (Collect exampleCollector []).1 =
      collectProjectMetrics exampleCollector.projectInformer
        ++ collectShootMetrics exampleCollector.shootInformer
        ++ collectSeedMetrics exampleCollector.seedInformer
        ++ (collectPlantMetrics exampleCollector.plantInformer []).1 :=
  (Collect_fixed_order_and_forwards_all exampleCollector []).1

/-- C4: a Shoot flagged `is_seed = true` contributes nothing to the aggregated
`garden_shoot_operations_total` samples — the aggregate over a snapshot
containing it equals the aggregate over the snapshot without it — while every
one of its per-shoot samples (condition, info, creation timestamp,
hibernated, node bounds, operation state/progress, response duration) still
appears in the shoot extractor's output. -/
theorem seed_shoots_excluded_from_operations_total (shoots : List Shoot) (s : Shoot)
    (h : s.isSeed = true) :
    operationsTotalSamples (s :: shoots) = operationsTotalSamples shoots
    ∧ ∀ m ∈ perShootSamples s, m ∈ collectShootMetrics (s :: shoots) := by
  constructor
  · simp [operationsTotalSamples, List.filter_cons, h]
  · intro m hm
    simp only [collectShootMetrics, List.mem_append, List.mem_flatten]
    exact Or.inl ⟨perShootSamples s, List.mem_map_of_mem _ (List.mem_cons_self _ _), hm⟩

/-- Example Shoot acting as a Seed, with an ongoing operation. -/
def exampleSeedShoot : Shoot :=
  ⟨"aws-01", "core", "aws", "eu-west-1", "1.15.2", "seed-aws", "production", "uid-1",
   true, false, 1546300800, [⟨"APIServerAvailable", "Healthy"⟩],
   some ⟨"Reconcile", "Succeeded", 100⟩, [(1, 3)], some 120⟩

/-- Witness for C4 at a concrete seed-acting Shoot: the aggregate is unchanged
and the shoot's own info sample is still emitted. -/
theorem seed_shoots_excluded_from_operations_total_witness :
    operationsTotalSamples [exampleSeedShoot] = operationsTotalSamples []
    ∧ ∀ m ∈ perShootSamples exampleSeedShoot, m ∈ collectShootMetrics [exampleSeedShoot] :=
  seed_shoots_excluded_from_operations_total [] exampleSeedShoot rfl

/-- C6: every condition sample emitted for a Condition attached to a Shoot,
Seed or Plant carries the value of the total mapping `mapConditionStatus` of
the condition's raw status string; that mapping always lands in
set -1, 0, 1, 2, maps the four recognized states to Healthy=1, Unhealthy=0,
Progressing=2, Unknown=-1, and maps every unrecognized status string to -1. -/
theorem condition_values_total_and_bounded :
    (∀ (s : Shoot) (c : Condition),
        (shootConditionSample s c).value = mapConditionStatus c.status)
    ∧ (∀ (sd : Seed) (c : Condition),
        (seedConditionSample sd c).value = mapConditionStatus c.status)
    ∧ (∀ (p : Plant) (proj : String) (c : Condition),
        (plantConditionSample p proj c).value = mapConditionStatus c.status)
    ∧ (∀ st : String, mapConditionStatus st = -1 ∨ mapConditionStatus st = 0 ∨
        mapConditionStatus st = 1 ∨ mapConditionStatus st = 2)
    ∧ mapConditionStatus "Healthy" = 1 ∧ mapConditionStatus "Unhealthy" = 0
    ∧ mapConditionStatus "Progressing" = 2 ∧ mapConditionStatus "Unknown" = -1
    ∧ (∀ st : String, st ≠ "Healthy" → st ≠ "Unhealthy" → st ≠ "Progressing" →
        mapConditionStatus st = -1) := by
  refine ⟨fun s c => rfl, fun sd c => rfl, fun p proj c => rfl, ?_,
    by decide, by decide, by decide, by decide, ?_⟩
  · intro st
    unfold mapConditionStatus
    split_ifs <;> simp
  · intro st h1 h2 h3
    simp [mapConditionStatus, h1, h2, h3]

/-- Witness for C6 at a concrete unrecognized status string. -/
theorem condition_values_total_and_bounded_witness :
    mapConditionStatus "SomethingElse" = -1 :=
  condition_values_total_and_bounded.2.2.2.2.2.2.2.2 "SomethingElse"
    (by decide) (by decide) (by decide)

/-- C7: `Describe` is side-effect-free and idempotent — it leaves the
collector unchanged and any two invocations on the same collector emit the
same multiset of descriptors — and it emits every descriptor of the
collector's catalog plus every dynamically-registered customization
descriptor. -/
theorem Describe_idempotent_and_complete (c : gardenMetricsCollector)
    (custom : List Desc) (it1 it2 : List (String × Desc))
    (h1 : it1.Perm c.descs) (h2 : it2.Perm c.descs) :
    (Describe c custom it1).1 = c
    ∧ ((Describe c custom it1).2).Perm ((Describe c custom it2).2)
    ∧ (∀ d ∈ c.descs, d.2 ∈ (Describe c custom it1).2)
    ∧ (∀ d ∈ custom, d ∈ (Describe c custom it1).2) := by
  refine ⟨rfl, ?_, ?_, ?_⟩
  · exact List.Perm.append_right _ ((h1.trans h2.symm).map Prod.snd)
  · intro d hd
    exact List.mem_append.mpr
      (Or.inl (List.mem_map_of_mem Prod.snd (h1.mem_iff.mpr hd)))
  · intro d hd
    exact List.mem_append.mpr (Or.inr hd)

/-- An example customization descriptor registered by a deployment-specific
extension. -/
def exampleCustomDesc : Desc :=
  ⟨"garden_shoot_custom_info", "Custom deployment-specific shoot information.", ["name"]⟩

/-- Witness for C7: two concrete iteration orders of the example collector's
catalog (source order and its reverse) leave the collector unchanged and emit
the same multiset of descriptors. -/
theorem Describe_idempotent_and_complete_witness :
    (Describe exampleCollector [exampleCustomDesc] getGardenMetricsDefinitions).1
        = exampleCollector
    ∧ ((Describe exampleCollector [exampleCustomDesc] getGardenMetricsDefinitions).2).Perm
        ((Describe exampleCollector [exampleCustomDesc] getGardenMetricsDefinitions.reverse).2)
    ∧ (∀ d ∈ exampleCollector.descs,
        d.2 ∈ (Describe exampleCollector [exampleCustomDesc] getGardenMetricsDefinitions).2)
    ∧ (∀ d ∈ [exampleCustomDesc],
        d ∈ (Describe exampleCollector [exampleCustomDesc] getGardenMetricsDefinitions).2) :=
  Describe_idempotent_and_complete exampleCollector [exampleCustomDesc]
    getGardenMetricsDefinitions getGardenMetricsDefinitions.reverse
    (List.Perm.refl _) (List.reverse_perm _)

/-- C10: `Describe` is set-deterministic — any two invocations on the same
collector emit the same multiset of descriptors, with the customization
descriptors following the catalog descriptors in both runs — but not
order-deterministic: two valid iteration orders of the Go map can emit the
sixteen catalog descriptors in different relative orders. -/
theorem Describe_set_deterministic_order_nondeterministic :
    (∀ (c : gardenMetricsCollector) (custom : List Desc) (it1 it2 : List (String × Desc)),
        it1.Perm c.descs → it2.Perm c.descs →
        ((Describe c custom it1).2).Perm ((Describe c custom it2).2)
        ∧ (Describe c custom it1).2.drop it1.length = registerShootCustomizationMetrics custom
        ∧ (Describe c custom it2).2.drop it2.length = registerShootCustomizationMetrics custom)
    ∧ (∃ it1 it2 : List (String × Desc),
        it1.Perm getGardenMetricsDefinitions ∧ it2.Perm getGardenMetricsDefinitions ∧
        (Describe exampleCollector [] it1).2 ≠ (Describe exampleCollector [] it2).2) := by
  constructor
  · intro c custom it1 it2 h1 h2
    refine ⟨List.Perm.append_right _ ((h1.trans h2.symm).map Prod.snd), ?_, ?_⟩
    · show (it1.map Prod.snd ++ registerShootCustomizationMetrics custom).drop it1.length
        = registerShootCustomizationMetrics custom
      rw [show it1.length = (it1.map Prod.snd).length by simp]
      exact List.drop_left _ _
    · show (it2.map Prod.snd ++ registerShootCustomizationMetrics custom).drop it2.length
        = registerShootCustomizationMetrics custom
      rw [show it2.length = (it2.map Prod.snd).length by simp]
      exact List.drop_left _ _
  · refine ⟨getGardenMetricsDefinitions, getGardenMetricsDefinitions.reverse,
      List.Perm.refl _, List.reverse_perm _, ?_⟩
    decide

/-- Witness for C10 at two concrete iteration orders. -/
theorem Describe_set_deterministic_order_nondeterministic_witness :
    ((Describe exampleCollector [exampleCustomDesc] getGardenMetricsDefinitions).2).Perm
      ((Describe exampleCollector [exampleCustomDesc] getGardenMetricsDefinitions.reverse).2) :=
  (Describe_set_deterministic_order_nondeterministic.1 exampleCollector [exampleCustomDesc]
    getGardenMetricsDefinitions getGardenMetricsDefinitions.reverse
    (List.Perm.refl _) (List.reverse_perm _)).1

/-- Predicate selecting the `garden_shoot_info` samples. -/
def isShootInfoSample (m : Sample) : Bool := m.name == metricGardenShootInfo

theorem countP_info_conditionSamples (s : Shoot) (conds : List Condition) :
    (conds.map (shootConditionSample s)).countP isShootInfoSample = 0 := by
  induction conds with
  | nil => rfl
  | cons c cs ih =>
      simpa [List.countP_cons, show isShootInfoSample (shootConditionSample s c) = false from rfl]
        using ih

theorem countP_info_nodeSamples (s : Shoot) :
    (shootNodeSamples s).countP isShootInfoSample = 0 := by
  unfold shootNodeSamples
  split <;> rfl

theorem countP_info_operationSamples (s : Shoot) :
    (shootOperationSamples s).countP isShootInfoSample = 0 := by
  unfold shootOperationSamples
  split <;> rfl

theorem countP_info_responseSamples (s : Shoot) :
    (shootResponseSamples s).countP isShootInfoSample = 0 := by
  unfold shootResponseSamples
  split <;> rfl

theorem perShootSamples_one_info (s : Shoot) :
    (perShootSamples s).countP isShootInfoSample = 1 := by
  unfold perShootSamples
  rw [List.countP_append, List.countP_append, List.countP_append, List.countP_append,
    countP_info_conditionSamples, countP_info_nodeSamples, countP_info_operationSamples,
    countP_info_responseSamples]
  rfl

theorem countP_info_operationsTotalSamples (shoots : List Shoot) :
    (operationsTotalSamples shoots).countP isShootInfoSample = 0 := by
  rw [List.countP_eq_zero]
  intro m hm
  simp only [operationsTotalSamples, List.mem_map] at hm
  obtain ⟨k, hk, rfl⟩ := hm
  simp [isShootInfoSample, metricGardenOperationsTotal, metricGardenShootInfo]

theorem collectShootMetrics_info_count (shoots : List Shoot) :
    (collectShootMetrics shoots).countP isShootInfoSample = shoots.length := by
  unfold collectShootMetrics
  rw [List.countP_append, countP_info_operationsTotalSamples, Nat.add_zero]
  induction shoots with
  | nil => rfl
  | cons s rest ih =>
      simp [List.countP_append, perShootSamples_one_info, ih, Nat.add_comm]

theorem perShootSamples_info_value (s : Shoot) :
    ∀ m ∈ perShootSamples s, isShootInfoSample m = true → m.value = 1 := by
  intro m hm hinfo
  unfold perShootSamples at hm
  simp only [List.mem_append] at hm
  rcases hm with ((((hm | hm) | hm) | hm) | hm)
  · obtain ⟨c, hc, rfl⟩ := List.mem_map.mp hm
    exact absurd hinfo (by
      rw [show isShootInfoSample (shootConditionSample s c) = false from rfl]
      exact Bool.false_ne_true)
  · simp only [List.mem_cons, List.not_mem_nil, or_false] at hm
    rcases hm with rfl | rfl | rfl
    · rfl
    · exact absurd hinfo (by
        rw [show isShootInfoSample (shootCreationSample s) = false from rfl]
        exact Bool.false_ne_true)
    · exact absurd hinfo (by
        rw [show isShootInfoSample (shootHibernatedSample s) = false from rfl]
        exact Bool.false_ne_true)
  · exact absurd hinfo (List.countP_eq_zero.mp (countP_info_nodeSamples s) m hm)
  · exact absurd hinfo (List.countP_eq_zero.mp (countP_info_operationSamples s) m hm)
  · exact absurd hinfo (List.countP_eq_zero.mp (countP_info_responseSamples s) m hm)

theorem collectShootMetrics_info_value (shoots : List Shoot) :
    ∀ m ∈ collectShootMetrics shoots, isShootInfoSample m = true → m.value = 1 := by
  intro m hm hinfo
  unfold collectShootMetrics at hm
  rcases List.mem_append.mp hm with hm | hm
  · obtain ⟨L, hL, hmL⟩ := List.mem_flatten.mp hm
    obtain ⟨s, hsmem, rfl⟩ := List.mem_map.mp hL
    exact perShootSamples_info_value s m hmL hinfo
  · exact absurd hinfo
      (List.countP_eq_zero.mp (countP_info_operationsTotalSamples shoots) m hm)

/-- C8: for every Shoot, exactly one `garden_shoot_info` sample is emitted per
scrape and its value is fixed at 1 — replacing the Shoot's condition list by
any other (zero or more conditions) never changes the count of its info
samples, which is always 1, its info sample always carries value 1, every
emitted info sample (per shoot and across a whole snapshot) has value 1, and
across a snapshot the number of info samples equals the number of Shoots. -/
theorem shoot_info_cardinality (shoots : List Shoot) (s : Shoot) (conds : List Condition) :
    (perShootSamples { s with conditions := conds }).countP isShootInfoSample = 1
    ∧ (perShootSamples s).countP isShootInfoSample = 1
    ∧ (collectShootMetrics shoots).countP isShootInfoSample = shoots.length
    ∧ (shootInfoSample { s with conditions := conds }).value = 1
    ∧ (∀ m ∈ perShootSamples s, isShootInfoSample m = true → m.value = 1)
    ∧ (∀ m ∈ collectShootMetrics shoots, isShootInfoSample m = true → m.value = 1) :=
  ⟨perShootSamples_one_info _, perShootSamples_one_info s,
    collectShootMetrics_info_count shoots, rfl,
    perShootSamples_info_value s, collectShootMetrics_info_value shoots⟩

/-- Witness for C8 at a concrete Shoot with zero conditions. -/
theorem shoot_info_cardinality_witness :
    (perShootSamples { exampleSeedShoot with conditions := [] }).countP isShootInfoSample = 1
    ∧ (perShootSamples exampleSeedShoot).countP isShootInfoSample = 1
    ∧ (collectShootMetrics [exampleSeedShoot]).countP isShootInfoSample
        = [exampleSeedShoot].length
    ∧ (shootInfoSample { exampleSeedShoot with conditions := [] }).value = 1
    ∧ (∀ m ∈ perShootSamples exampleSeedShoot, isShootInfoSample m = true → m.value = 1)
    ∧ (∀ m ∈ collectShootMetrics [exampleSeedShoot],
        isShootInfoSample m = true → m.value = 1) :=
  shoot_info_cardinality [exampleSeedShoot] exampleSeedShoot []

theorem collectPlantMetrics_fst_const (plants : List Plant)
    (f g : List (String × String)) :
    (collectPlantMetrics plants f).1 = (collectPlantMetrics plants g).1 := by
  induction plants generalizing f g with
  | nil => rfl
  | cons p rest ih =>
      simp only [collectPlantMetrics]
      cases hd : derivePlantSamples p with
      | ok s => simpa using ih f g
      | error r => simpa using ih (f ++ [("plant", r)]) (g ++ [("plant", r)])

theorem collectPlantMetrics_all_ok_snd (plants : List Plant) (f : List (String × String))
    (h : ∀ p ∈ plants, ∃ s, derivePlantSamples p = Except.ok s) :
    (collectPlantMetrics plants f).2 = f := by
  induction plants generalizing f with
  | nil => rfl
  | cons p rest ih =>
      obtain ⟨s, hs⟩ := h p (List.mem_cons_self _ _)
      simp only [collectPlantMetrics, hs]
      exact ih f (fun q hq => h q (List.mem_cons_of_mem _ hq))

/-- C5: with exactly one bad Plant (one whose per-object derivation errors)
among otherwise valid Plants, the extractor skips exactly that object — the
emitted samples equal those of the snapshot without it — and appends exactly
one increment to the scrape-failure counter, labeled with the resource kind
plant and the failure reason, while an all-valid snapshot adds no increment. -/
theorem plant_failure_isolation (pre post : List Plant) (bad : Plant)
    (reason : String) (failures : List (String × String))
    (hpre : ∀ p ∈ pre, ∃ s, derivePlantSamples p = Except.ok s)
    (hpost : ∀ p ∈ post, ∃ s, derivePlantSamples p = Except.ok s)
    (hbad : derivePlantSamples bad = Except.error reason) :
    (collectPlantMetrics (pre ++ bad :: post) failures).1
        = (collectPlantMetrics (pre ++ post) failures).1
    ∧ (collectPlantMetrics (pre ++ bad :: post) failures).2
        = failures ++ [("plant", reason)]
    ∧ (collectPlantMetrics (pre ++ post) failures).2 = failures := by
  induction pre generalizing failures with
  | nil =>
      refine ⟨?_, ?_, collectPlantMetrics_all_ok_snd post failures hpost⟩
      · simp only [List.nil_append, collectPlantMetrics, hbad]
        exact collectPlantMetrics_fst_const post _ _
      · simp only [List.nil_append, collectPlantMetrics, hbad]
        exact collectPlantMetrics_all_ok_snd post _ hpost
  | cons p pre ih =>
      obtain ⟨s, hs⟩ := hpre p (List.mem_cons_self _ _)
      have ih' := ih failures (fun q hq => hpre q (List.mem_cons_of_mem _ hq))
      simp only [List.cons_append, collectPlantMetrics, hs]
      exact ⟨congrArg (fun l => s ++ l) ih'.1, ih'.2.1, ih'.2.2⟩

/-- A valid example Plant. -/
def examplePlantA : Plant :=
  ⟨"plant-a", some "core", "gcp", "europe-west1", "1.14.0", [⟨"APIServerAvailable", "Healthy"⟩]⟩

/-- Another valid example Plant. -/
def examplePlantB : Plant :=
  ⟨"plant-b", some "trial", "aws", "eu-central-1", "1.13.5", []⟩

/-- A malformed example Plant: its owning project reference is nil. -/
def exampleBadPlant : Plant :=
  ⟨"plant-bad", none, "azure", "westeurope", "1.12.0", []⟩

/-- Witness for C5 at a concrete snapshot with one malformed Plant between two
valid ones. -/
theorem plant_failure_isolation_witness :
    (collectPlantMetrics [examplePlantA, exampleBadPlant, examplePlantB] []).1
        = (collectPlantMetrics [examplePlantA, examplePlantB] []).1
    ∧ (collectPlantMetrics [examplePlantA, exampleBadPlant, examplePlantB] []).2
        = [] ++ [("plant", "missing project owner reference")]
    ∧ (collectPlantMetrics [examplePlantA, examplePlantB] []).2 = [] :=
  plant_failure_isolation [examplePlantA] [examplePlantB] exampleBadPlant
    "missing project owner reference" []
    (by intro p hp; rw [List.mem_singleton] at hp; subst hp; exact ⟨_, rfl⟩)
    (by intro p hp; rw [List.mem_singleton] at hp; subst hp; exact ⟨_, rfl⟩)
    rfl

theorem MustRegister_collision (registry names : List String)
    (h : ∃ n ∈ names, n ∈ registry) :
    MustRegister registry names
      = Except.error "duplicate metrics collector registration attempted" := by
  unfold MustRegister
  rw [if_pos h]

theorem MustRegister_fresh (registry names : List String)
    (h : ¬∃ n ∈ names, n ∈ registry) :
    MustRegister registry names = Except.ok (registry ++ names) := by
  unfold MustRegister
  rw [if_neg h]

theorem except_bind_ok {α β : Type} (a : α) (f : α → Except String β) :
    (Except.ok a >>= f : Except String β) = f a := rfl

theorem except_bind_error {α β : Type} (e : String) (f : α → Except String β) :
    ((Except.error e : Except String α) >>= f) = Except.error e := rfl

theorem SetupMetricsCollector_eq (sh : List Shoot) (se : List Seed) (pr : List Project)
    (pl : List Plant) (lg : Nat) (registry : List String) :
    SetupMetricsCollector sh se pr pl lg registry =
      if ∃ n ∈ gardenCollectorDescNames, n ∈ registry then
        Except.error "duplicate metrics collector registration attempted"
      else if metricGardenScrapeFailures ∈ registry ++ gardenCollectorDescNames then
        Except.error "duplicate metrics collector registration attempted"
      else
        Except.ok (⟨sh, se, pr, pl, getGardenMetricsDefinitions, lg⟩,
          (registry ++ gardenCollectorDescNames) ++ [metricGardenScrapeFailures]) := by
  have hdef : SetupMetricsCollector sh se pr pl lg registry
      = (MustRegister registry gardenCollectorDescNames >>= fun r1 =>
          MustRegister r1 [metricGardenScrapeFailures] >>= fun r2 =>
          pure ((⟨sh, se, pr, pl, getGardenMetricsDefinitions, lg⟩ : gardenMetricsCollector),
            r2)) := rfl
  rw [hdef]
  by_cases h1 : ∃ n ∈ gardenCollectorDescNames, n ∈ registry
  · rw [MustRegister_collision _ _ h1, if_pos h1]
    rfl
  · rw [MustRegister_fresh _ _ h1, if_neg h1]
    simp only [except_bind_ok]
    by_cases h2 : metricGardenScrapeFailures ∈ registry ++ gardenCollectorDescNames
    · have h2x : ∃ n ∈ [metricGardenScrapeFailures], n ∈ registry ++ gardenCollectorDescNames :=
        ⟨metricGardenScrapeFailures, List.mem_singleton.mpr rfl, h2⟩
      rw [MustRegister_collision _ _ h2x, if_pos h2]
      rfl
    · have h2x : ¬∃ n ∈ [metricGardenScrapeFailures], n ∈ registry ++ gardenCollectorDescNames := by
        rintro ⟨n, hn, hmem⟩
        rw [List.mem_singleton] at hn
        subst hn
        exact h2 hmem
      rw [MustRegister_fresh _ _ h2x, if_neg h2]
      rfl

/-- C2: whenever `SetupMetricsCollector` succeeds it has registered both the
garden metrics collector (all sixteen catalog descriptor names) and the
scrape-failure counter, and a second call against the resulting registry —
with any informer handles — deterministically fails loudly (the modelled
panic of `prometheus.MustRegister` on duplicate registration). -/
theorem SetupMetricsCollector_second_call_fails
    (sh1 : List Shoot) (se1 : List Seed) (pr1 : List Project) (pl1 : List Plant) (lg1 : Nat)
    (sh2 : List Shoot) (se2 : List Seed) (pr2 : List Project) (pl2 : List Plant) (lg2 : Nat)
    (registry after : List String) (col : gardenMetricsCollector)
    (h : SetupMetricsCollector sh1 se1 pr1 pl1 lg1 registry = Except.ok (col, after)) :
    (∀ n ∈ gardenCollectorDescNames, n ∈ after)
    ∧ metricGardenScrapeFailures ∈ after
    ∧ ∃ e, SetupMetricsCollector sh2 se2 pr2 pl2 lg2 after = Except.error e := by
  rw [SetupMetricsCollector_eq] at h
  split_ifs at h with h1 h2
  rw [Except.ok.injEq, Prod.mk.injEq] at h
  obtain ⟨hcol, hafter⟩ := h
  subst hafter
  refine ⟨?_, ?_, ?_⟩
  · intro n hn
    exact List.mem_append.mpr (Or.inl (List.mem_append.mpr (Or.inr hn)))
  · exact List.mem_append.mpr (Or.inr (List.mem_singleton.mpr rfl))
  · refine ⟨"duplicate metrics collector registration attempted", ?_⟩
    rw [SetupMetricsCollector_eq, if_pos ⟨metricGardenOperationsTotal, by decide,
      List.mem_append.mpr (Or.inl (List.mem_append.mpr (Or.inr (by decide))))⟩]

/-- Witness for C2: a concrete first call on an empty registry succeeds and
the second call on the resulting registry fails. -/
theorem SetupMetricsCollector_second_call_fails_witness :
    (∀ n ∈ gardenCollectorDescNames,
        n ∈ gardenCollectorDescNames ++ [metricGardenScrapeFailures])
    ∧ metricGardenScrapeFailures ∈ gardenCollectorDescNames ++ [metricGardenScrapeFailures]
    ∧ ∃ e, SetupMetricsCollector [] [] [] [] 0
        (gardenCollectorDescNames ++ [metricGardenScrapeFailures]) = Except.error e :=
  SetupMetricsCollector_second_call_fails [] [] [] [] 0 [] [] [] [] 0 []
    (gardenCollectorDescNames ++ [metricGardenScrapeFailures]) exampleCollector rfl

end GardenerMetrics
